import Mathlib

/-!
Shallow embedding of the capacity / pricing core of the `ravintola-sinet`
restaurant application (Django).  Money amounts, which the source handles
with `decimal.Decimal` (and occasionally Python floats), are modelled as
exact rationals; rounding to two decimal places is modelled as
round-half-even, matching `Decimal.quantize` with the default context and
Python's `round`.
-/

/-- Round a rational to the nearest integer, ties to even
(the rounding used by `Decimal.quantize` and Python's `round`). -/
def roundHalfEven (x : ℚ) : ℤ :=
  let f : ℤ := ⌊x⌋
  let r : ℚ := x - f
  if r < 1/2 then f
  else if 1/2 < r then f + 1
  else if 2 ∣ f then f else f + 1

/-- Round a rational to two decimal places, half to even
(models `fee.quantize(Decimal("0.01"))` and Python `round(x, 2)`). -/
def round2 (q : ℚ) : ℚ := (roundHalfEven (q * 100) : ℚ) / 100

/-- A rational that is an exact multiple of 1/100, i.e. a two-decimal
currency amount. -/
def TwoDP (q : ℚ) : Prop := ∃ k : ℤ, q = (k : ℚ) / 100

-- ---------------------------------------------------------------------
-- restaurant/utils.py : delivery fee schedule
-- ---------------------------------------------------------------------

/-- A delivery pricing policy record.
Modelled from the spec: the `DeliveryPricing` model itself is not under
src/ (only `utils.py` imports it); per spec section 4.2 the policy supplies
`{base_km, base_fee, per_km_fee, max_fee}` loaded from the current active
pricing record. -/
structure DeliveryPricing where
  base_km : ℚ
  base_fee : ℚ
  per_km_fee : ℚ
  max_fee : ℚ
deriving Repr, DecidableEq

/-- The hard-coded fallback defaults of `delivery_fee_for_distance`. -/
def defaultPricing : DeliveryPricing :=
  { base_km := 2, base_fee := 0, per_km_fee := 99/100, max_fee := 899/100 }

/-- `restaurant/utils.py::delivery_fee_for_distance`.  The active
`DeliveryPricing` row (the result of the ORM query) is passed in as an
optional argument; `none` means no active pricing record, so the
hard-coded defaults apply. -/
def delivery_fee_for_distance (pricing : Option DeliveryPricing) (d : ℚ) : ℚ :=
  if d ≤ 0 then 0
  else
    let p := pricing.getD defaultPricing
    let fee := if d ≤ p.base_km then p.base_fee
               else p.base_fee + (d - p.base_km) * p.per_km_fee
    let fee := if fee > p.max_fee then p.max_fee else fee
    round2 fee

-- ---------------------------------------------------------------------
-- restaurant/models.py : Reservation and its capacity validation
-- ---------------------------------------------------------------------

/-- Reservation status choices of `restaurant/models.py::Reservation`. -/
inductive RStatus where
  | pending
  | confirmed
  | cancelled
  | completed
deriving Repr, DecidableEq

/-- One `Reservation` row.  `start` stands for the `start_datetime` slot
key (reservations share capacity exactly when their `start_datetime` is
identical, so the timestamp is abstracted to a slot identifier). -/
structure Reservation where
  pk : ℕ
  start : ℕ
  party_size : ℕ
  baby_seats : ℕ
  tables_needed : ℕ
  status : RStatus
deriving Repr, DecidableEq

/-- Capacity constants of `Reservation`. -/
def TABLES_TOTAL : ℕ := 14

def CHAIRS_TOTAL : ℕ := 55

def BABY_SEATS_TOTAL : ℕ := 2

/-- `Reservation.compute_tables_needed`: `max(1, ceil(party_size / 4))`,
with non-positive party sizes mapped to 1. -/
def compute_tables_needed (party_size : ℕ) : ℕ :=
  if party_size ≤ 0 then 1
  else max 1 ((party_size + 3) / 4)

/-- Sum of a field over the rows of a slot aggregation queryset. -/
def aggSum (rows : List Reservation) (f : Reservation → ℕ) : ℕ :=
  (rows.map f).sum

/-- The capacity portion of `Reservation.clean`: aggregate over the
sibling rows with the same `start_datetime` (the caller has already
applied the `exclude(pk=self.pk)` of an edit) and reject when chairs,
baby seats or tables would overflow.  Note the queryset filters only on
`start_datetime`: rows of every status are counted. -/
def capacity_clean_ok (others : List Reservation) (r : Reservation) : Bool :=
  let same := others.filter (fun x => x.start == r.start)
  let chairs_used := aggSum same (·.party_size)
  let babies_used := aggSum same (·.baby_seats)
  let tables_used := aggSum same (·.tables_needed)
  ¬(chairs_used + r.party_size > CHAIRS_TOTAL) &&
  ¬(babies_used + r.baby_seats > BABY_SEATS_TOTAL) &&
  ¬(tables_used + r.tables_needed > TABLES_TOTAL)

/-- A booking submission or edit.  `clean` recomputes `tables_needed`
from `party_size`, so the incoming `tables_needed` field is irrelevant
and overwritten before validation and save.  The time-of-day checks of
`clean` (future, 30-minute grid) constrain only the timestamp value, not
the capacity sums, and are modelled separately with the form validation. -/
inductive ResOp where
  | create (r : Reservation)
  | edit (pk : ℕ) (r : Reservation)
deriving Repr, DecidableEq

/-- Run `Reservation.clean` (capacity part) followed by `save` on the
current table contents.  Creation requires a fresh primary key (the
database assigns one); an edit updates the existing row with that key,
which `clean` excludes from the aggregation.  Returns `none` when
validation raises, leaving the table unchanged. -/
def applyResOp (rows : List Reservation) : ResOp → Option (List Reservation)
  | .create r =>
      let r := { r with tables_needed := compute_tables_needed r.party_size }
      if rows.any (fun x => x.pk == r.pk) then none
      else if capacity_clean_ok rows r then some (rows ++ [r]) else none
  | .edit pk r =>
      if rows.any (fun x => x.pk == pk) then
        let r := { r with pk := pk,
                          tables_needed := compute_tables_needed r.party_size }
        let others := rows.filter (fun x => ¬(x.pk == pk))
        if capacity_clean_ok others r then some (others ++ [r]) else none
      else none

/-- Run a sequence of validated creations and edits. -/
def applyResOps (rows : List Reservation) : List ResOp → Option (List Reservation)
  | [] => some rows
  | op :: ops =>
      match applyResOp rows op with
      | none => none
      | some rows' => applyResOps rows' ops

/-- Sum of a field over the non-cancelled reservations of a slot. -/
def slotSumNC (rows : List Reservation) (t : ℕ) (f : Reservation → ℕ) : ℕ :=
  aggSum (rows.filter (fun x => x.start == t && ¬(x.status == RStatus.cancelled))) f

/-- Sum of a field over all reservations of a slot, every status. -/
def slotSum (rows : List Reservation) (t : ℕ) (f : Reservation → ℕ) : ℕ :=
  aggSum (rows.filter (fun x => x.start == t)) f

/-- All-status slot sums are within capacity: this is the invariant the
capacity check actually maintains (it never filters on status). -/
def CapInv (rows : List Reservation) : Prop :=
  ∀ t, slotSum rows t (·.party_size) ≤ CHAIRS_TOTAL ∧
       slotSum rows t (·.baby_seats) ≤ BABY_SEATS_TOTAL ∧
       slotSum rows t (·.tables_needed) ≤ TABLES_TOTAL

/-- Every saved row went through `clean`, which recomputes
`tables_needed` from `party_size` before the capacity check. -/
def TablesDerived (rows : List Reservation) : Prop :=
  ∀ r ∈ rows, r.tables_needed = compute_tables_needed r.party_size

/-- A concrete pair of bookings and an edit used to instantiate the
capacity invariant. -/
def demoResOps : List ResOp :=
  [ResOp.create { pk := 1, start := 5, party_size := 10, baby_seats := 1,
                  tables_needed := 0, status := RStatus.pending },
   ResOp.create { pk := 2, start := 5, party_size := 8, baby_seats := 1,
                  tables_needed := 0, status := RStatus.pending },
   ResOp.edit 2 { pk := 2, start := 5, party_size := 12, baby_seats := 0,
                  tables_needed := 0, status := RStatus.confirmed }]

/-- The reservation table produced by `demoResOps`. -/
def demoResRows : List Reservation :=
  [{ pk := 1, start := 5, party_size := 10, baby_seats := 1,
     tables_needed := 3, status := RStatus.pending },
   { pk := 2, start := 5, party_size := 12, baby_seats := 0,
     tables_needed := 3, status := RStatus.confirmed }]

-- ---------------------------------------------------------------------
-- restaurant/forms.py : ReservationForm time validation
-- ---------------------------------------------------------------------

/-- A local wall-clock time of day.  The form combines the submitted
date and time, makes the result timezone-aware and compares its local
time of day; the date part and the timezone conversion do not affect the
checks modelled here (Finland's offset is a whole number of hours), so
only the local time of day is kept. -/
structure LocalTime where
  hour : ℕ
  minute : ℕ
  second : ℕ
deriving Repr, DecidableEq

/-- `ReservationForm.clean`: zero seconds and microseconds
(`aware_dt.replace(second=0, microsecond=0)`), then validate the
30-minute grid, the opening window and futurity, in source order,
returning the first error raised or the cleaned `start_datetime`.
Whether `aware_dt >= timezone.now()` holds is passed in as `isFuture`. -/
def reservation_form_clean_time (t : LocalTime) (isFuture : Bool) :
    Except String LocalTime :=
  let t := { t with second := 0 }
  if ¬(t.minute = 0 ∨ t.minute = 30) then
    Except.error "Bookings are available only in 30-minute intervals."
  else if t.hour < 10 then
    Except.error "Please choose a time between 10:00 and 22:00."
  else if t.hour > 21 ∨ (t.hour = 21 ∧ t.minute > 30) then
    Except.error "Last booking start time is 21:30."
  else if ¬isFuture then
    Except.error "Please choose a future time."
  else
    Except.ok t

/-- The 30-minute-grid condition of `Reservation.clean` itself
(models.py): it raises when `minute not in (0, 30) or second != 0`;
this is the non-raising condition. -/
def reservation_model_grid_ok (minute second : ℕ) : Bool :=
  (minute == 0 || minute == 30) && second == 0

-- ---------------------------------------------------------------------
-- restaurant/models.py : DeliveryPromotion, DeliveryCoupon
-- ---------------------------------------------------------------------

/-- Coupon discount kinds.  `percent` and `fixed` are declared on
`DeliveryCoupon` in src models.py; `free_delivery` is referenced
throughout views.py and forms.py as `DISCOUNT_FREE_DELIVERY`.
Modelled from the spec: the `free_delivery` choice declaration is
missing from src models.py; per spec section 4.4 it is the third
`discount_type` kind. -/
inductive DiscountType where
  | percent
  | fixed
  | free_delivery
deriving Repr, DecidableEq

/-- One `DeliveryCoupon` row.  Timestamps are abstract integers.
The fields `is_personal`, `assigned_user` and `issued_month` are
modelled from the spec: their declarations are missing from src
models.py but are used by the loyalty views; per spec section 3 a
personal coupon carries an `is_personal` flag, an `assigned_user` and an
`issued_month` for loyalty-issued codes. -/
structure DeliveryCoupon where
  code : String
  is_active : Bool
  discount_type : DiscountType
  discount_value : ℚ
  min_subtotal : ℚ
  start_at : Option ℤ
  end_at : Option ℤ
  max_uses : Option ℕ
  used_count : ℕ
  is_personal : Bool
  assigned_user : Option ℕ
  issued_month : String
deriving Repr, DecidableEq

/-- `DeliveryCoupon.is_current`. -/
def DeliveryCoupon.is_current (c : DeliveryCoupon) (now : ℤ) : Bool :=
  if ¬c.is_active then false
  else if (match c.start_at with | some s => decide (now < s) | none => false) then false
  else if (match c.end_at with | some e => decide (e < now) | none => false) then false
  else if (match c.max_uses with | some m => decide (m ≤ c.used_count) | none => false) then false
  else true

/-- `DeliveryCoupon.compute_discount`: the discount applies to the
subtotal, never exceeds it and is never negative.  Any discount type
other than `fixed` takes the percent branch, exactly as in the source's
if/else. -/
def DeliveryCoupon.compute_discount (c : DeliveryCoupon) (subtotal : ℚ) : ℚ :=
  if subtotal < c.min_subtotal then 0
  else
    let val := c.discount_value
    let disc := if c.discount_type = DiscountType.fixed then val
                else subtotal * val / 100
    let disc := if disc < 0 then 0 else disc
    if disc > subtotal then subtotal else disc

/-- Modelled from the spec: `DeliveryCoupon.grants_free_delivery` is
called by views.py but its definition is missing from src models.py;
per spec section 4.4 a free-delivery coupon signals the pipeline to zero
the delivery fee, gated on `subtotal ≥ min_subtotal`. -/
def DeliveryCoupon.grants_free_delivery (c : DeliveryCoupon) (subtotal : ℚ) : Bool :=
  c.min_subtotal ≤ subtotal

/-- One `DeliveryPromotion` row. -/
structure DeliveryPromotion where
  title : String
  is_active : Bool
  start_at : Option ℤ
  end_at : Option ℤ
  min_subtotal : ℚ
  free_delivery : Bool
  created_at : ℤ
deriving Repr, DecidableEq

/-- `DeliveryPromotion.is_current`. -/
def DeliveryPromotion.is_current (p : DeliveryPromotion) (now : ℤ) : Bool :=
  if ¬p.is_active then false
  else if (match p.start_at with | some s => decide (now < s) | none => false) then false
  else if (match p.end_at with | some e => decide (e < now) | none => false) then false
  else true

/-- `views.py::_active_promo`: the most recently created promotion with
`is_active=True`, kept only if its schedule window contains now.  The
promotion table is passed in; `order_by("-created_at").first()` is the
row with the greatest `created_at` (earlier rows win ties, the database
order being unspecified). -/
def active_promo (promos : List DeliveryPromotion) (now : ℤ) : Option DeliveryPromotion :=
  let first := (promos.filter (·.is_active)).foldl
    (fun acc p =>
      match acc with
      | none => some p
      | some q => if q.created_at < p.created_at then some p else some q)
    none
  match first with
  | some promo => if promo.is_current now then some promo else none
  | none => none

/-- The promotion part of the totals context returned to templates. -/
structure PromoInfo where
  active : Bool
  title : String := ""
  free_delivery : Bool := false
  min_subtotal : ℚ := 0
deriving Repr, DecidableEq

/-- `views.py::_apply_promo_delivery_fee`.  The source computes
`ok_min = subtotal >= min_sub` but never uses it: the fee is returned
unchanged on every path and `"free_delivery": False` is forced in the
info dict (commented `# force false` in the source). -/
def apply_promo_delivery_fee (promos : List DeliveryPromotion) (now : ℤ)
    (fee subtotal : ℚ) : ℚ × PromoInfo :=
  match active_promo promos now with
  | none => (fee, { active := false })
  | some promo =>
      let min_sub := promo.min_subtotal
      let _ok_min := decide (subtotal ≥ min_sub)
      (fee, { active := true, title := promo.title, free_delivery := false,
              min_subtotal := min_sub })

/-- An always-running free-delivery promotion with no minimum subtotal. -/
def demoPromo : DeliveryPromotion :=
  { title := "Free Delivery", is_active := true, start_at := none, end_at := none,
    min_subtotal := 0, free_delivery := true, created_at := 0 }

/-- The PERCENT10 coupon of the spec's example: 10 percent off, no
minimum subtotal. -/
def demoPercentCoupon : DeliveryCoupon :=
  { code := "PERCENT10", is_active := true, discount_type := DiscountType.percent,
    discount_value := 10, min_subtotal := 0, start_at := none, end_at := none,
    max_uses := none, used_count := 0, is_personal := false, assigned_user := none,
    issued_month := "" }

-- ---------------------------------------------------------------------
-- restaurant/views.py : session cart, coupon application, totals
-- ---------------------------------------------------------------------

/-- Menu item statuses; the cart queries exclude only `hidden`. -/
inductive MStatus where
  | active
  | hidden
  | sold_out
deriving Repr, DecidableEq

/-- The slice of a `MenuItem` row the cart logic reads. -/
structure MenuItem where
  id : ℕ
  price : ℚ
  status : MStatus
deriving Repr, DecidableEq

/-- One line of the computed cart (`lines[]` of `_cart_totals`). -/
structure CartLine where
  id : ℕ
  qty : ℕ
  unit_price : ℚ
deriving Repr, DecidableEq

/-- The coupon info dict reported to templates.  Missing keys of the
source dicts are modelled by the defaults. -/
structure CouponInfo where
  active : Bool
  code : String := ""
  ctype : Option DiscountType := none
  value : ℚ := 0
  min_subtotal : ℚ := 0
  free_delivery : Bool := false
  discount : ℚ := 0
deriving Repr, DecidableEq

/-- `views.py::_coupon_discount_for_request`.  The `coupon` argument is
the result of `_get_coupon_from_session` (lookup, `is_current` and
personal-ownership checks happen there); `none` means no usable coupon
in the session. -/
def coupon_discount_for (coupon : Option DeliveryCoupon) (subtotal : ℚ) :
    ℚ × CouponInfo :=
  match coupon with
  | none => (0, { active := false })
  | some c =>
      if c.discount_type = DiscountType.free_delivery then
        (0, { active := true, code := c.code, ctype := some c.discount_type,
              value := 0, min_subtotal := c.min_subtotal,
              free_delivery := c.grants_free_delivery subtotal })
      else
        let disc := c.compute_discount subtotal
        if subtotal ≤ 0 then
          (0, { active := true, code := c.code, ctype := some c.discount_type,
                value := c.discount_value, min_subtotal := c.min_subtotal,
                free_delivery := false })
        else if disc ≤ 0 then
          (0, { active := false })
        else
          (disc, { active := true, code := c.code, discount := round2 disc,
                   ctype := some c.discount_type, value := c.discount_value,
                   min_subtotal := c.min_subtotal, free_delivery := false })

/-- The valid cart lines: session items with a positive quantity whose
menu item exists and is not hidden, priced from the live catalog. -/
def cart_lines (menu : List MenuItem) (items : List (ℕ × ℕ)) : List CartLine :=
  (items.filter (fun iq => 0 < iq.2)).filterMap
    (fun iq =>
      match menu.find? (fun m => m.id == iq.1 && !(m.status == MStatus.hidden)) with
      | some m => some { id := iq.1, qty := iq.2, unit_price := m.price }
      | none => none)

/-- The raw (unrounded) subtotal of the cart lines. -/
def cart_subtotal_raw (menu : List MenuItem) (items : List (ℕ × ℕ)) : ℚ :=
  ((cart_lines menu items).map (fun l => l.unit_price * (l.qty : ℚ))).sum

/-- The item count of the cart lines. -/
def cart_count (menu : List MenuItem) (items : List (ℕ × ℕ)) : ℕ :=
  ((cart_lines menu items).map (·.qty)).sum

/-- The dict returned by `_cart_totals`. -/
structure CartTotals where
  subtotal : ℚ
  delivery_fee : ℚ
  coupon_discount : ℚ
  coupon : CouponInfo
  total : ℚ
  count : ℕ
  lines : List CartLine
  delivery_fee_waived : Bool
deriving Repr, DecidableEq

/-- `views.py::_cart_totals`.  `sessionFee` is
`request.session["delivery_fee"]` (already promotion-adjusted when it
was stored by `delivery_set_location`); `coupon` is the session coupon
as in `coupon_discount_for`. -/
def cart_totals (menu : List MenuItem) (items : List (ℕ × ℕ))
    (sessionFee : ℚ) (coupon : Option DeliveryCoupon) : CartTotals :=
  let lines := cart_lines menu items
  let subtotal0 := cart_subtotal_raw menu items
  let count := cart_count menu items
  let dc := coupon_discount_for coupon subtotal0
  let discount0 := dc.1
  let info0 := dc.2
  let fi :=
    match coupon with
    | some c =>
        if c.discount_type = DiscountType.free_delivery then
          if c.grants_free_delivery subtotal0 then
            ((0 : ℚ), { info0 with free_delivery := true })
          else (sessionFee, { info0 with free_delivery := false })
        else (sessionFee, info0)
    | none => (sessionFee, info0)
  if count ≤ 0 then
    let info1 : CouponInfo :=
      match coupon with
      | some c =>
          { active := true, code := c.code, ctype := some c.discount_type,
            value := c.discount_value, min_subtotal := c.min_subtotal,
            free_delivery := false }
      | none => { active := false }
    { subtotal := round2 0, delivery_fee := round2 0, coupon_discount := round2 0,
      coupon := info1, total := round2 (max 0 ((0 : ℚ) - 0) + 0), count := count,
      lines := lines, delivery_fee_waived := info1.free_delivery }
  else
    { subtotal := round2 subtotal0, delivery_fee := round2 fi.1,
      coupon_discount := round2 discount0, coupon := fi.2,
      total := round2 (max 0 (subtotal0 - discount0) + fi.1), count := count,
      lines := lines, delivery_fee_waived := fi.2.free_delivery }

/-- The money snapshot persisted by `delivery_place_order`. -/
structure PlacedOrder where
  subtotal : ℚ
  delivery_fee : ℚ
  total : ℚ
  coupon_code : String
  coupon_discount : ℚ
deriving Repr, DecidableEq

/-- `views.py::delivery_place_order`, money path.  The location, name
and phone validations are omitted: they reject the request without
touching the money fields.  The order is rejected (`none`) when the
cart has no lines.  Note `cart.get("total") or (subtotal + fee)`:
Python treats a total of 0 as falsy and substitutes the fallback sum,
and the stored `coupon_discount` is recomputed from the rounded cart
subtotal rather than taken from the cart's discount. -/
def delivery_place_order (menu : List MenuItem) (items : List (ℕ × ℕ))
    (sessionFee : ℚ) (coupon : Option DeliveryCoupon) : Option PlacedOrder :=
  let cart := cart_totals menu items sessionFee coupon
  if cart.lines.isEmpty then none
  else
    let subtotal := cart.subtotal
    let fee := cart.delivery_fee
    let total := if cart.total = 0 then subtotal + fee else cart.total
    let coupon_discount :=
      match coupon with
      | some c => c.compute_discount subtotal
      | none => 0
    some { subtotal := subtotal, delivery_fee := fee, total := total,
           coupon_code := (match coupon with | some c => c.code | none => ""),
           coupon_discount := coupon_discount }

/-- A free-delivery coupon requiring a subtotal of at least 30. -/
def demoFreeCoupon : DeliveryCoupon :=
  { code := "FREEDEL", is_active := true, discount_type := DiscountType.free_delivery,
    discount_value := 0, min_subtotal := 30, start_at := none, end_at := none,
    max_uses := none, used_count := 0, is_personal := false, assigned_user := none,
    issued_month := "" }

/-- A one-line menu with price 20. -/
def menu20 : List MenuItem := [{ id := 1, price := 20, status := MStatus.active }]

/-- A one-line menu with price 40. -/
def menu40 : List MenuItem := [{ id := 1, price := 40, status := MStatus.active }]

/-- The discount `delivery_place_order` recomputes and stores:
`coupon.compute_discount(subtotal)` for the consumed coupon, 0 when no
coupon was consumed. -/
def couponComputedDiscount (coupon : Option DeliveryCoupon) (s : ℚ) : ℚ :=
  match coupon with
  | some c => c.compute_discount s
  | none => 0

/-- The order stored for a one-item cart of 20 with session fee 5 and
no coupon. -/
def demoOrder : PlacedOrder :=
  { subtotal := 20, delivery_fee := 5, total := 25, coupon_code := "",
    coupon_discount := 0 }

/-- A menu whose single item costs 50.05. -/
def cexMenu : List MenuItem := [{ id := 1, price := 1001/20, status := MStatus.active }]

/-- A 10-percent coupon with no minimum subtotal. -/
def cexCoupon : DeliveryCoupon :=
  { code := "PCT10", is_active := true, discount_type := DiscountType.percent,
    discount_value := 10, min_subtotal := 0, start_at := none, end_at := none,
    max_uses := none, used_count := 0, is_personal := false, assigned_user := none,
    issued_month := "" }

/-- The order actually stored for that cart: subtotal 50.05, discount
5.005, total 45.04 (the rounded 45.045). -/
def cexOrder : PlacedOrder :=
  { subtotal := 1001/20, delivery_fee := 0, total := 1126/25,
    coupon_code := "PCT10", coupon_discount := 1001/200 }

-- ---------------------------------------------------------------------
-- restaurant/views.py : loyalty accrual
-- ---------------------------------------------------------------------

/-- The dict returned by `views.py::_loyalty_config`.
Modelled from the spec: the `LoyaltyProgram` model read by
`_loyalty_config` is missing from src models.py; per spec section 4.6
it supplies an enabled flag, `target_orders` (default 10) and
`reward_percent` (default 30). -/
structure LoyaltyConfig where
  enabled : Bool
  target : ℕ
  percent : ℕ
deriving Repr, DecidableEq

/-- The filter `_ensure_loyalty_coupon_for_user` uses to look up an
already-issued loyalty coupon of this user and month. -/
def loyalty_matches (cfg : LoyaltyConfig) (userId : ℕ) (monthKey : String)
    (c : DeliveryCoupon) : Bool :=
  c.is_active && c.is_personal && (c.assigned_user == some userId) &&
  (c.issued_month == monthKey) && (c.discount_type == DiscountType.percent) &&
  decide (c.discount_value = (cfg.percent : ℚ))

/-- The one-time personal coupon `_ensure_loyalty_coupon_for_user`
creates: percent type, reward percent value, `max_uses=1`, valid for the
calendar month, assigned to the user. -/
def loyaltyCoupon (cfg : LoyaltyConfig) (userId : ℕ) (monthKey : String)
    (monthStart monthEnd : ℤ) (freshCode : String) : DeliveryCoupon :=
  { code := freshCode, is_active := true, discount_type := DiscountType.percent,
    discount_value := (cfg.percent : ℚ), min_subtotal := 0,
    start_at := some monthStart, end_at := some monthEnd, max_uses := some 1,
    used_count := 0, is_personal := true, assigned_user := some userId,
    issued_month := monthKey }

/-- `views.py::_ensure_loyalty_coupon_for_user` for an authenticated
user.  `count` is `_loyalty_delivered_count` (the user's delivered
orders in the current calendar month), `monthKey` is
`_issued_month_str()`, `monthStart`/`monthEnd` are `_month_bounds()`,
and `freshCode` stands for the generated `LOYAL{percent}-` code.
Returns the coupon handed to the caller and the coupon table after the
call. -/
def ensure_loyalty_coupon_for_user (cfg : LoyaltyConfig) (userId : ℕ) (count : ℕ)
    (monthKey : String) (monthStart monthEnd : ℤ) (now : ℤ) (freshCode : String)
    (coupons : List DeliveryCoupon) : Option DeliveryCoupon × List DeliveryCoupon :=
  if ¬cfg.enabled then (none, coupons)
  else if count < cfg.target then (none, coupons)
  else
    let coupon := loyaltyCoupon cfg userId monthKey monthStart monthEnd freshCode
    match coupons.find? (loyalty_matches cfg userId monthKey) with
    | some existing =>
        if existing.is_current now then (some existing, coupons)
        else (some coupon, coupons ++ [coupon])
    | none => (some coupon, coupons ++ [coupon])

theorem roundHalfEven_intCast (k : ℤ) : roundHalfEven (k : ℚ) = k := by
  unfold roundHalfEven
  simp

theorem round2_eq_self {q : ℚ} (h : TwoDP q) : round2 q = q := by
  obtain ⟨k, rfl⟩ := h
  unfold round2
  have h100 : ((k : ℚ) / 100) * 100 = (k : ℚ) := by
    field_simp
  rw [h100, roundHalfEven_intCast]

theorem TwoDP.zero : TwoDP 0 := ⟨0, by norm_num⟩

theorem TwoDP.add {a b : ℚ} (ha : TwoDP a) (hb : TwoDP b) : TwoDP (a + b) := by
  obtain ⟨j, rfl⟩ := ha
  obtain ⟨k, rfl⟩ := hb
  exact ⟨j + k, by push_cast; ring⟩

theorem TwoDP.sub {a b : ℚ} (ha : TwoDP a) (hb : TwoDP b) : TwoDP (a - b) := by
  obtain ⟨j, rfl⟩ := ha
  obtain ⟨k, rfl⟩ := hb
  exact ⟨j - k, by push_cast; ring⟩

theorem TwoDP.max {a b : ℚ} (ha : TwoDP a) (hb : TwoDP b) : TwoDP (max a b) := by
  rcases le_total a b with h | h
  · rwa [max_eq_right h]
  · rwa [max_eq_left h]

theorem TwoDP.natMul {a : ℚ} (ha : TwoDP a) (n : ℕ) : TwoDP (a * n) := by
  obtain ⟨k, rfl⟩ := ha
  exact ⟨k * n, by push_cast; ring⟩

theorem slotSum_append (rows : List Reservation) (r : Reservation) (t : ℕ)
    (f : Reservation → ℕ) :
    slotSum (rows ++ [r]) t f =
      slotSum rows t f + (if r.start = t then f r else 0) := by
  unfold slotSum aggSum
  rw [List.filter_append]
  by_cases h : r.start = t <;>
    simp [List.filter_cons, h]

theorem slotSum_filter_le (rows : List Reservation) (q : Reservation → Bool)
    (t : ℕ) (f : Reservation → ℕ) :
    slotSum (rows.filter q) t f ≤ slotSum rows t f := by
  induction rows with
  | nil => simp [slotSum, aggSum]
  | cons a l ih =>
      by_cases hq : q a <;> by_cases hs : a.start = t <;>
        simp [slotSum, aggSum, List.filter_cons, hq, hs] at * <;> omega

theorem slotSumNC_le_slotSum (rows : List Reservation) (t : ℕ)
    (f : Reservation → ℕ) :
    slotSumNC rows t f ≤ slotSum rows t f := by
  induction rows with
  | nil => simp [slotSumNC, slotSum, aggSum]
  | cons a l ih =>
      by_cases hs : a.start = t <;>
        by_cases hc : a.status = RStatus.cancelled <;>
          simp [slotSumNC, slotSum, aggSum, List.filter_cons, hs, hc] at * <;> omega

theorem capacity_clean_ok_spec {others : List Reservation} {r : Reservation}
    (h : capacity_clean_ok others r = true) :
    slotSum others r.start (·.party_size) + r.party_size ≤ CHAIRS_TOTAL ∧
    slotSum others r.start (·.baby_seats) + r.baby_seats ≤ BABY_SEATS_TOTAL ∧
    slotSum others r.start (·.tables_needed) + r.tables_needed ≤ TABLES_TOTAL := by
  unfold capacity_clean_ok at h
  simp only [Bool.and_eq_true, decide_eq_true_eq] at h
  unfold slotSum
  omega

theorem save_step {base : List Reservation} {r' : Reservation}
    (hInvB : CapInv base) (hcap : capacity_clean_ok base r' = true) :
    CapInv (base ++ [r']) := by
  intro t
  rw [slotSum_append, slotSum_append, slotSum_append]
  have hspec := capacity_clean_ok_spec hcap
  by_cases ht : r'.start = t
  · subst ht
    simp
    omega
  · rcases hInvB t with ⟨h1, h2, h3⟩
    simp only [if_neg ht]
    omega

theorem applyResOp_preserves {rows rows' : List Reservation} {op : ResOp}
    (hInv : CapInv rows) (hDer : TablesDerived rows)
    (h : applyResOp rows op = some rows') : CapInv rows' ∧ TablesDerived rows' := by
  cases op with
  | create r =>
      unfold applyResOp at h
      by_cases hfresh : rows.any (fun x => x.pk == r.pk) <;> simp [hfresh] at h
      obtain ⟨hcap, rfl⟩ := h
      refine ⟨save_step hInv hcap, ?_⟩
      intro x hx
      rcases List.mem_append.mp hx with hx | hx
      · exact hDer x hx
      · rcases List.mem_singleton.mp hx with rfl
        rfl
  | edit pk r =>
      unfold applyResOp at h
      by_cases hmem : rows.any (fun x => x.pk == pk) <;> simp [hmem] at h
      obtain ⟨hcap, rfl⟩ := h
      have hInvO : CapInv (rows.filter (fun x => !decide (x.pk = pk))) := by
        intro t
        rcases hInv t with ⟨h1, h2, h3⟩
        have g1 := slotSum_filter_le rows (fun x => !decide (x.pk = pk)) t (·.party_size)
        have g2 := slotSum_filter_le rows (fun x => !decide (x.pk = pk)) t (·.baby_seats)
        have g3 := slotSum_filter_le rows (fun x => !decide (x.pk = pk)) t (·.tables_needed)
        exact ⟨le_trans g1 h1, le_trans g2 h2, le_trans g3 h3⟩
      refine ⟨save_step hInvO hcap, ?_⟩
      intro x hx
      rcases List.mem_append.mp hx with hx | hx
      · exact hDer x (List.mem_of_mem_filter hx)
      · rcases List.mem_singleton.mp hx with rfl
        rfl

theorem applyResOps_preserves :
    ∀ (ops : List ResOp) (rows rows' : List Reservation),
    CapInv rows → TablesDerived rows →
    applyResOps rows ops = some rows' → CapInv rows' ∧ TablesDerived rows' := by
  intro ops
  induction ops with
  | nil =>
      intro rows rows' hInv hDer h
      simp [applyResOps] at h
      subst h
      exact ⟨hInv, hDer⟩
  | cons op ops ih =>
      intro rows rows' hInv hDer h
      unfold applyResOps at h
      cases hstep : applyResOp rows op with
      | none => rw [hstep] at h; cases h
      | some rows1 =>
          rw [hstep] at h
          rcases applyResOp_preserves hInv hDer hstep with ⟨hInv1, hDer1⟩
          exact ih rows1 rows' hInv1 hDer1 h

theorem slotSumNC_tables_eq {rows : List Reservation} (t : ℕ)
    (hDer : TablesDerived rows) :
    slotSumNC rows t (fun r => compute_tables_needed r.party_size) =
      slotSumNC rows t (·.tables_needed) := by
  unfold slotSumNC aggSum
  congr 1
  apply List.map_congr_left
  intro x hx
  exact (hDer x (List.mem_of_mem_filter hx)).symm

/-- C2: starting from an empty reservation table, any sequence of
creations and edits that each pass `Reservation.clean` followed by `save`
keeps, at every `start_datetime` slot, the sum of `party_size` over
non-cancelled reservations at or below 55, the sum of `baby_seats` at or
below 2, and the sum of `tables_needed` (= `ceil(party_size/4)`, at
least 1) at or below 14. -/
theorem reservation_slot_capacity (ops : List ResOp) (rows : List Reservation)
    (h : applyResOps [] ops = some rows) (t : ℕ) :
    slotSumNC rows t (·.party_size) ≤ 55 ∧
    slotSumNC rows t (·.baby_seats) ≤ 2 ∧
    slotSumNC rows t (fun r => compute_tables_needed r.party_size) ≤ 14 := by
  have hInv0 : CapInv [] := by
    intro t
    simp [slotSum, aggSum, CHAIRS_TOTAL, BABY_SEATS_TOTAL, TABLES_TOTAL]
  have hDer0 : TablesDerived [] := by
    intro x hx
    cases hx
  rcases applyResOps_preserves ops [] rows hInv0 hDer0 h with ⟨hInv, hDer⟩
  rcases hInv t with ⟨h1, h2, h3⟩
  have g1 := slotSumNC_le_slotSum rows t (·.party_size)
  have g2 := slotSumNC_le_slotSum rows t (·.baby_seats)
  have g3 := slotSumNC_le_slotSum rows t (·.tables_needed)
  refine ⟨?_, ?_, ?_⟩
  · calc slotSumNC rows t (·.party_size) ≤ _ := g1
      _ ≤ 55 := h1
  · calc slotSumNC rows t (·.baby_seats) ≤ _ := g2
      _ ≤ 2 := h2
  · rw [slotSumNC_tables_eq t hDer]
    calc slotSumNC rows t (·.tables_needed) ≤ _ := g3
      _ ≤ 14 := h3

/-- A concrete run of two bookings and one edit at slot 5, instantiating
the capacity invariant. -/
theorem reservation_slot_capacity_witness :
    applyResOps [] demoResOps = some demoResRows ∧
    (slotSumNC demoResRows 5 (·.party_size) ≤ 55 ∧
      slotSumNC demoResRows 5 (·.baby_seats) ≤ 2 ∧
      slotSumNC demoResRows 5 (fun r => compute_tables_needed r.party_size) ≤ 14) :=
  ⟨by decide, reservation_slot_capacity demoResOps demoResRows (by decide) 5⟩

theorem filter_map_status (rows : List Reservation) (f : Reservation → RStatus)
    (p : Reservation → Bool) (g : Reservation → ℕ)
    (hp : ∀ x, p { x with status := f x } = p x)
    (hg : ∀ x, g { x with status := f x } = g x) :
    ((rows.map (fun x => { x with status := f x })).filter p).map g =
      (rows.filter p).map g := by
  induction rows with
  | nil => rfl
  | cons a l ih =>
      by_cases hpa : p a
      · simp [List.filter_cons, hp a, hpa, hg a, ih]
      · simp [List.filter_cons, hp a, hpa, ih]

/-- C10: the aggregation of `Reservation.clean` filters only on
`start_datetime`, never on `status`: changing the statuses of the
existing rows in any way (in particular, cancelling them) leaves the
capacity check's outcome unchanged, and concretely a single cancelled
party of 55 at a slot makes a new booking of 1 at that slot fail
validation. -/
theorem capacity_aggregation_ignores_status :
    (∀ (rows : List Reservation) (r : Reservation) (f : Reservation → RStatus),
        capacity_clean_ok (rows.map (fun x => { x with status := f x })) r =
          capacity_clean_ok rows r) ∧
    applyResOp
      [{ pk := 1, start := 7, party_size := 55, baby_seats := 0,
         tables_needed := 14, status := RStatus.cancelled }]
      (ResOp.create { pk := 2, start := 7, party_size := 1, baby_seats := 0,
                      tables_needed := 1, status := RStatus.pending }) = none := by
  constructor
  · intro rows r f
    unfold capacity_clean_ok aggSum
    dsimp only
    rw [filter_map_status rows f (fun x => x.start == r.start)
          (fun x => x.party_size) (fun x => rfl) (fun x => rfl),
        filter_map_status rows f (fun x => x.start == r.start)
          (fun x => x.baby_seats) (fun x => rfl) (fun x => rfl),
        filter_map_status rows f (fun x => x.start == r.start)
          (fun x => x.tables_needed) (fun x => rfl) (fun x => rfl)]
  · decide

/-- C6: the reservation form rejects a 21:45 start (off the 30-minute
grid) and a 22:00 start (past last seating) and accepts 21:30; in
general it accepts exactly the future times whose minute is 0 or 30 and
whose local time of day lies in [10:00, 21:30], always with second 0,
and every accepted time also passes the grid check that
`Reservation.clean` repeats. -/
theorem reservation_form_time_spec :
    reservation_form_clean_time ⟨21, 45, 0⟩ true =
      Except.error "Bookings are available only in 30-minute intervals." ∧
    reservation_form_clean_time ⟨22, 0, 0⟩ true =
      Except.error "Last booking start time is 21:30." ∧
    reservation_form_clean_time ⟨21, 30, 0⟩ true = Except.ok ⟨21, 30, 0⟩ ∧
    (∀ (t : LocalTime) (fut : Bool) (u : LocalTime),
        reservation_form_clean_time t fut = Except.ok u →
          u.second = 0 ∧ reservation_model_grid_ok u.minute u.second = true) ∧
    (∀ (t : LocalTime) (fut : Bool),
        reservation_form_clean_time t fut = Except.ok { t with second := 0 } ↔
          (fut = true ∧ (t.minute = 0 ∨ t.minute = 30) ∧
            600 ≤ 60 * t.hour + t.minute ∧ 60 * t.hour + t.minute ≤ 1290)) := by
  refine ⟨rfl, rfl, rfl, ?_, ?_⟩
  · intro t fut u h
    unfold reservation_form_clean_time at h
    dsimp only at h
    by_cases h1 : t.minute = 0 ∨ t.minute = 30
    · rw [if_neg (not_not_intro h1)] at h
      by_cases h2 : t.hour < 10
      · rw [if_pos h2] at h
        cases h
      · rw [if_neg h2] at h
        by_cases h3 : t.hour > 21 ∨ (t.hour = 21 ∧ t.minute > 30)
        · rw [if_pos h3] at h
          cases h
        · rw [if_neg h3] at h
          by_cases h4 : fut
          · rw [if_neg (by simp [h4])] at h
            injection h with h
            subst h
            refine ⟨rfl, ?_⟩
            rcases h1 with h1 | h1 <;> simp [reservation_model_grid_ok, h1]
          · rw [if_pos (by simp [h4])] at h
            cases h
    · rw [if_pos (by simpa using h1)] at h
      cases h
  · intro t fut
    unfold reservation_form_clean_time
    dsimp only
    constructor
    · intro h
      by_cases h1 : t.minute = 0 ∨ t.minute = 30
      · rw [if_neg (not_not_intro h1)] at h
        by_cases h2 : t.hour < 10
        · rw [if_pos h2] at h
          cases h
        · rw [if_neg h2] at h
          by_cases h3 : t.hour > 21 ∨ (t.hour = 21 ∧ t.minute > 30)
          · rw [if_pos h3] at h
            cases h
          · rw [if_neg h3] at h
            by_cases h4 : fut
            · refine ⟨h4, h1, ?_, ?_⟩ <;> rcases h1 with h1 | h1 <;> omega
            · rw [if_pos (by simp [h4])] at h
              cases h
      · rw [if_pos (by simpa using h1)] at h
        cases h
    · rintro ⟨rfl, hgrid, hlo, hhi⟩
      have hm : t.minute ≤ 30 := by rcases hgrid with h | h <;> omega
      rw [if_neg (not_not_intro hgrid)]
      rw [if_neg (show ¬t.hour < 10 by omega)]
      rw [if_neg (show ¬(t.hour > 21 ∨ (t.hour = 21 ∧ t.minute > 30)) by omega)]
      rw [if_neg (by simp)]

/-- A concrete accepted booking time: 12:30 with stray seconds, in the
future, is cleaned to 12:30:00 and accepted. -/
theorem reservation_form_time_spec_witness :
    reservation_form_clean_time ⟨12, 30, 17⟩ true = Except.ok ⟨12, 30, 0⟩ :=
  (reservation_form_time_spec.2.2.2.2 ⟨12, 30, 17⟩ true).mpr
    (by refine ⟨rfl, Or.inr rfl, by norm_num, by norm_num⟩)

/-- C1 counterexample: an active promotion granting free delivery, with
its minimum subtotal met, still leaves a fee of 5 unchanged instead of
returning 0. -/
theorem apply_promo_fee_unchanged_counterexample :
    active_promo [demoPromo] 0 = some demoPromo ∧
    demoPromo.free_delivery = true ∧
    demoPromo.min_subtotal ≤ 10 ∧
    (apply_promo_delivery_fee [demoPromo] 0 5 10).1 = 5 ∧
    (apply_promo_delivery_fee [demoPromo] 0 5 10).1 ≠ 0 :=
  ⟨rfl, rfl, by norm_num [demoPromo], rfl,
   by rw [show (apply_promo_delivery_fee [demoPromo] 0 5 10).1 = 5 from rfl]; norm_num⟩

/-- C1 amended: `_apply_promo_delivery_fee` never adjusts the fee — it
is returned unchanged whether or not an active promotion grants free
delivery and whatever the subtotal — while the returned info always
reports whether a promotion is active (with its title and minimum
subtotal) and always reports `free_delivery` as false. -/
theorem apply_promo_delivery_fee_spec (promos : List DeliveryPromotion) (now : ℤ)
    (fee subtotal : ℚ) :
    (apply_promo_delivery_fee promos now fee subtotal).1 = fee ∧
    (apply_promo_delivery_fee promos now fee subtotal).2.active =
      (active_promo promos now).isSome ∧
    (apply_promo_delivery_fee promos now fee subtotal).2.free_delivery = false := by
  unfold apply_promo_delivery_fee
  cases active_promo promos now <;> simp

/-- C8: `compute_discount` returns 0 below the minimum subtotal; a fixed
coupon yields its `discount_value` clamped to `[0, subtotal]`; a percent
coupon yields `subtotal × discount_value / 100` clamped to
`[0, subtotal]`. -/
theorem compute_discount_spec (c : DeliveryCoupon) (subtotal : ℚ)
    (hs : 0 ≤ subtotal) :
    (subtotal < c.min_subtotal → c.compute_discount subtotal = 0) ∧
    (c.min_subtotal ≤ subtotal → c.discount_type = DiscountType.fixed →
      c.compute_discount subtotal = min (max c.discount_value 0) subtotal) ∧
    (c.min_subtotal ≤ subtotal → c.discount_type = DiscountType.percent →
      c.compute_discount subtotal =
        min (max (subtotal * c.discount_value / 100) 0) subtotal) := by
  refine ⟨?_, ?_, ?_⟩
  · intro h
    unfold DeliveryCoupon.compute_discount
    rw [if_pos h]
  · intro hmin hty
    unfold DeliveryCoupon.compute_discount
    dsimp only
    rw [if_neg (not_lt.mpr hmin), if_pos hty]
    by_cases hneg : c.discount_value < 0
    · rw [if_pos hneg, if_neg (not_lt.mpr hs)]
      rw [max_eq_right (le_of_lt hneg), min_eq_left hs]
    · rw [if_neg hneg]
      by_cases hgt : c.discount_value > subtotal
      · rw [if_pos hgt, max_eq_left (not_lt.mp hneg), min_eq_right (le_of_lt hgt)]
      · rw [if_neg hgt, max_eq_left (not_lt.mp hneg), min_eq_left (not_lt.mp hgt)]
  · intro hmin hty
    unfold DeliveryCoupon.compute_discount
    dsimp only
    rw [if_neg (not_lt.mpr hmin),
      show (if c.discount_type = DiscountType.fixed then c.discount_value
            else subtotal * c.discount_value / 100) =
          subtotal * c.discount_value / 100 from if_neg (by simp [hty])]
    by_cases hneg : subtotal * c.discount_value / 100 < 0
    · rw [if_pos hneg, if_neg (not_lt.mpr hs)]
      rw [max_eq_right (le_of_lt hneg), min_eq_left hs]
    · rw [if_neg hneg]
      by_cases hgt : subtotal * c.discount_value / 100 > subtotal
      · rw [if_pos hgt, max_eq_left (not_lt.mp hneg), min_eq_right (le_of_lt hgt)]
      · rw [if_neg hgt, max_eq_left (not_lt.mp hneg), min_eq_left (not_lt.mp hgt)]

/-- PERCENT10 applied to a subtotal of 50.00 yields a discount of 5.00. -/
theorem compute_discount_spec_witness :
    demoPercentCoupon.compute_discount 50 = 5 := by
  have h := (compute_discount_spec demoPercentCoupon 50 (by norm_num)).2.2
    (by norm_num [demoPercentCoupon]) rfl
  rw [h]
  norm_num [demoPercentCoupon]

theorem round2_zero : round2 0 = 0 := round2_eq_self TwoDP.zero

theorem cart_fd_fee_eligible (menu : List MenuItem) (items : List (ℕ × ℕ))
    (sessionFee : ℚ) (c : DeliveryCoupon)
    (hty : c.discount_type = DiscountType.free_delivery)
    (hmin : c.min_subtotal ≤ cart_subtotal_raw menu items) :
    (cart_totals menu items sessionFee (some c)).delivery_fee = 0 := by
  unfold cart_totals
  dsimp only
  rw [if_pos hty]
  rw [if_pos (show c.grants_free_delivery (cart_subtotal_raw menu items) = true by
    simp [DeliveryCoupon.grants_free_delivery, hmin])]
  by_cases hc : cart_count menu items ≤ 0
  · rw [if_pos hc]
    exact round2_zero
  · rw [if_neg hc]
    exact round2_zero

theorem cart_fd_fee_not_eligible (menu : List MenuItem) (items : List (ℕ × ℕ))
    (sessionFee : ℚ) (c : DeliveryCoupon)
    (hty : c.discount_type = DiscountType.free_delivery)
    (hmin : ¬c.min_subtotal ≤ cart_subtotal_raw menu items)
    (hcount : ¬cart_count menu items ≤ 0) :
    (cart_totals menu items sessionFee (some c)).delivery_fee = round2 sessionFee ∧
    (cart_totals menu items sessionFee (some c)).delivery_fee_waived = false := by
  unfold cart_totals
  dsimp only
  rw [if_pos hty]
  rw [if_neg (show ¬c.grants_free_delivery (cart_subtotal_raw menu items) = true by
    simp [DeliveryCoupon.grants_free_delivery, hmin])]
  rw [if_neg hcount]
  exact ⟨rfl, rfl⟩

theorem cart_subtotal_raw_menu20 : cart_subtotal_raw menu20 [(1, 1)] = 20 := by
  unfold cart_subtotal_raw
  rw [show cart_lines menu20 [(1, 1)] =
      [{ id := 1, qty := 1, unit_price := 20 }] from rfl]
  norm_num

theorem cart_subtotal_raw_menu40 : cart_subtotal_raw menu40 [(1, 1)] = 40 := by
  unfold cart_subtotal_raw
  rw [show cart_lines menu40 [(1, 1)] =
      [{ id := 1, qty := 1, unit_price := 40 }] from rfl]
  norm_num

theorem cart_count_menu20 : cart_count menu20 [(1, 1)] = 1 := rfl

/-- C3: with a free-delivery coupon of minimum subtotal 30, a cart of
subtotal 20 keeps its delivery fee of 5 (not waived) while a cart of
subtotal 40 gets fee 0; in general, whenever the selected free-delivery
coupon is eligible (`subtotal ≥ min_subtotal`), the resulting delivery
fee is 0 whatever fee the session (promotion step included) carried. -/
theorem free_delivery_coupon_fee_spec :
    (cart_totals menu20 [(1, 1)] 5 (some demoFreeCoupon)).delivery_fee = 5 ∧
    (cart_totals menu20 [(1, 1)] 5 (some demoFreeCoupon)).delivery_fee_waived = false ∧
    (cart_totals menu40 [(1, 1)] 5 (some demoFreeCoupon)).delivery_fee = 0 ∧
    (∀ (menu : List MenuItem) (items : List (ℕ × ℕ)) (sessionFee : ℚ)
        (c : DeliveryCoupon),
        c.discount_type = DiscountType.free_delivery →
        c.min_subtotal ≤ cart_subtotal_raw menu items →
        (cart_totals menu items sessionFee (some c)).delivery_fee = 0) := by
  refine ⟨?_, ?_, ?_, ?_⟩
  · rw [(cart_fd_fee_not_eligible menu20 [(1, 1)] 5 demoFreeCoupon rfl
      (by rw [cart_subtotal_raw_menu20]; norm_num [demoFreeCoupon])
      (by rw [cart_count_menu20]; omega)).1]
    exact round2_eq_self ⟨500, by norm_num⟩
  · exact (cart_fd_fee_not_eligible menu20 [(1, 1)] 5 demoFreeCoupon rfl
      (by rw [cart_subtotal_raw_menu20]; norm_num [demoFreeCoupon])
      (by rw [cart_count_menu20]; omega)).2
  · exact cart_fd_fee_eligible menu40 [(1, 1)] 5 demoFreeCoupon rfl
      (by rw [cart_subtotal_raw_menu40]; norm_num [demoFreeCoupon])
  · intro menu items sessionFee c hty hmin
    exact cart_fd_fee_eligible menu items sessionFee c hty hmin

/-- C9: an empty cart forces subtotal, delivery fee and coupon discount
to zero, while a coupon selected in the session is still reported as
active with its code, type, value and minimum subtotal. -/
theorem cart_totals_empty_cart (menu : List MenuItem) (items : List (ℕ × ℕ))
    (sessionFee : ℚ) (coupon : Option DeliveryCoupon)
    (h : cart_count menu items = 0) :
    (cart_totals menu items sessionFee coupon).subtotal = 0 ∧
    (cart_totals menu items sessionFee coupon).delivery_fee = 0 ∧
    (cart_totals menu items sessionFee coupon).coupon_discount = 0 ∧
    (∀ c, coupon = some c →
      (cart_totals menu items sessionFee coupon).coupon =
        { active := true, code := c.code, ctype := some c.discount_type,
          value := c.discount_value, min_subtotal := c.min_subtotal,
          free_delivery := false }) ∧
    (coupon = none →
      (cart_totals menu items sessionFee coupon).coupon = { active := false }) := by
  unfold cart_totals
  dsimp only
  rw [if_pos (by omega : cart_count menu items ≤ 0)]
  refine ⟨round2_zero, round2_zero, round2_zero, ?_, ?_⟩
  · rintro c rfl
    rfl
  · rintro rfl
    rfl

/-- An empty cart (no matching menu items) with a selected percent
coupon: totals are zeroed but the coupon stays reported. -/
theorem cart_totals_empty_cart_witness :
    cart_count [] [(3, 2)] = 0 ∧
    (cart_totals [] [(3, 2)] 7 (some demoPercentCoupon)).subtotal = 0 ∧
    (cart_totals [] [(3, 2)] 7 (some demoPercentCoupon)).delivery_fee = 0 ∧
    (cart_totals [] [(3, 2)] 7 (some demoPercentCoupon)).coupon_discount = 0 ∧
    (cart_totals [] [(3, 2)] 7 (some demoPercentCoupon)).coupon =
      { active := true, code := "PERCENT10", ctype := some DiscountType.percent,
        value := 10, min_subtotal := 0, free_delivery := false } := by
  have h0 : cart_count [] [(3, 2)] = 0 := rfl
  have h := cart_totals_empty_cart [] [(3, 2)] 7 (some demoPercentCoupon) h0
  refine ⟨h0, h.1, h.2.1, h.2.2.1, ?_⟩
  rw [h.2.2.2.1 demoPercentCoupon rfl]
  rfl

theorem TwoDP.list_sum {l : List ℚ} (h : ∀ x ∈ l, TwoDP x) : TwoDP l.sum := by
  induction l with
  | nil => simpa using TwoDP.zero
  | cons a t ih =>
      rw [List.sum_cons]
      exact TwoDP.add (h a (List.mem_cons_self a t))
        (ih (fun x hx => h x (List.mem_cons_of_mem a hx)))

theorem cart_lines_price {menu : List MenuItem} {items : List (ℕ × ℕ)} :
    ∀ l ∈ cart_lines menu items, ∃ m, m ∈ menu ∧ l.unit_price = m.price := by
  intro l hl
  unfold cart_lines at hl
  rcases List.mem_filterMap.mp hl with ⟨iq, _, hmap⟩
  cases hfind : menu.find? (fun m => m.id == iq.1 && !(m.status == MStatus.hidden)) with
  | none => rw [hfind] at hmap; cases hmap
  | some m =>
      rw [hfind] at hmap
      injection hmap with hmap
      exact ⟨m, List.mem_of_find?_eq_some hfind, by rw [← hmap]⟩

theorem cart_lines_qty_pos {menu : List MenuItem} {items : List (ℕ × ℕ)} :
    ∀ l ∈ cart_lines menu items, 0 < l.qty := by
  intro l hl
  unfold cart_lines at hl
  rcases List.mem_filterMap.mp hl with ⟨iq, hiq, hmap⟩
  have hq : 0 < iq.2 := by
    have := List.of_mem_filter hiq
    simpa using this
  cases hfind : menu.find? (fun m => m.id == iq.1 && !(m.status == MStatus.hidden)) with
  | none => rw [hfind] at hmap; cases hmap
  | some m =>
      rw [hfind] at hmap
      injection hmap with hmap
      rw [← hmap]
      exact hq

theorem cart_count_pos {menu : List MenuItem} {items : List (ℕ × ℕ)}
    (h : cart_lines menu items ≠ []) : 0 < cart_count menu items := by
  unfold cart_count
  cases hl : cart_lines menu items with
  | nil => exact absurd hl h
  | cons a t =>
      have ha : 0 < a.qty := cart_lines_qty_pos a (hl ▸ List.mem_cons_self a t)
      simp only [List.map_cons, List.sum_cons]
      omega

theorem cart_subtotal_raw_twoDP {menu : List MenuItem} {items : List (ℕ × ℕ)}
    (hmenu : ∀ m ∈ menu, TwoDP m.price) : TwoDP (cart_subtotal_raw menu items) := by
  unfold cart_subtotal_raw
  apply TwoDP.list_sum
  intro x hx
  rcases List.mem_map.mp hx with ⟨l, hl, rfl⟩
  rcases cart_lines_price l hl with ⟨m, hm, hp⟩
  rw [hp]
  exact TwoDP.natMul (hmenu m hm) l.qty

theorem cart_subtotal_raw_nonneg {menu : List MenuItem} {items : List (ℕ × ℕ)}
    (hmenu : ∀ m ∈ menu, 0 ≤ m.price) : 0 ≤ cart_subtotal_raw menu items := by
  unfold cart_subtotal_raw
  apply List.sum_nonneg
  intro x hx
  rcases List.mem_map.mp hx with ⟨l, hl, rfl⟩
  rcases cart_lines_price l hl with ⟨m, hm, hp⟩
  rw [hp]
  exact mul_nonneg (hmenu m hm) (Nat.cast_nonneg l.qty)

theorem compute_discount_nonneg (c : DeliveryCoupon) {s : ℚ} (hs : 0 ≤ s) :
    0 ≤ c.compute_discount s := by
  unfold DeliveryCoupon.compute_discount
  dsimp only
  by_cases hmin : s < c.min_subtotal
  · rw [if_pos hmin]
  · rw [if_neg hmin]
    set disc := if c.discount_type = DiscountType.fixed then c.discount_value
                else s * c.discount_value / 100 with hdisc
    by_cases hneg : disc < 0
    · rw [if_pos hneg]
      by_cases hgt : (0 : ℚ) > s
      · rw [if_pos hgt]
        exact hs
      · rw [if_neg hgt]
    · rw [if_neg hneg]
      by_cases hgt : disc > s
      · rw [if_pos hgt]
        exact hs
      · rw [if_neg hgt]
        exact not_lt.mp hneg

theorem compute_discount_zero_subtotal (c : DeliveryCoupon) :
    c.compute_discount 0 = 0 := by
  unfold DeliveryCoupon.compute_discount
  dsimp only
  by_cases hmin : (0 : ℚ) < c.min_subtotal
  · rw [if_pos hmin]
  · rw [if_neg hmin]
    set disc := if c.discount_type = DiscountType.fixed then c.discount_value
                else 0 * c.discount_value / 100 with hdisc
    by_cases hneg : disc < 0
    · rw [if_pos hneg, if_neg (by norm_num : ¬(0 : ℚ) > 0)]
    · rw [if_neg hneg]
      by_cases hgt : disc > 0
      · rw [if_pos hgt]
      · rw [if_neg hgt]
        exact le_antisymm (not_lt.mp hgt) (not_lt.mp hneg)

theorem compute_discount_value_zero (c : DeliveryCoupon) {s : ℚ} (hs : 0 ≤ s)
    (hty : ¬c.discount_type = DiscountType.fixed) (hval : c.discount_value = 0) :
    c.compute_discount s = 0 := by
  unfold DeliveryCoupon.compute_discount
  dsimp only
  by_cases hmin : s < c.min_subtotal
  · rw [if_pos hmin]
  · rw [if_neg hmin, if_neg hty, hval]
    have h0 : s * 0 / 100 = 0 := by ring
    rw [h0]
    rw [if_neg (by norm_num : ¬(0 : ℚ) < 0)]
    rw [if_neg (not_lt.mpr hs)]

theorem coupon_discount_eq (coupon : Option DeliveryCoupon) {s : ℚ} (hs : 0 ≤ s)
    (hfd : ∀ c, coupon = some c →
      c.discount_type = DiscountType.free_delivery → c.discount_value = 0) :
    (coupon_discount_for coupon s).1 = couponComputedDiscount coupon s := by
  cases coupon with
  | none => rfl
  | some c =>
      unfold coupon_discount_for couponComputedDiscount
      dsimp only
      by_cases hty : c.discount_type = DiscountType.free_delivery
      · rw [if_pos hty]
        exact (compute_discount_value_zero c hs (by rw [hty]; intro h; cases h)
          (hfd c rfl hty)).symm
      · rw [if_neg hty]
        by_cases hz : s ≤ 0
        · rw [if_pos hz]
          have hs0 : s = 0 := le_antisymm hz hs
          rw [hs0, compute_discount_zero_subtotal]
        · rw [if_neg hz]
          by_cases hd : c.compute_discount s ≤ 0
          · rw [if_pos hd]
            exact (le_antisymm hd (compute_discount_nonneg c hs)).symm
          · rw [if_neg hd]

theorem cart_totals_lines (menu : List MenuItem) (items : List (ℕ × ℕ))
    (sessionFee : ℚ) (coupon : Option DeliveryCoupon) :
    (cart_totals menu items sessionFee coupon).lines = cart_lines menu items := by
  unfold cart_totals
  dsimp only
  by_cases hc : cart_count menu items ≤ 0
  · rw [if_pos hc]
  · rw [if_neg hc]

theorem cart_money (menu : List MenuItem) (items : List (ℕ × ℕ))
    (sessionFee : ℚ) (coupon : Option DeliveryCoupon)
    (hcount : ¬cart_count menu items ≤ 0) :
    ∃ f0 : ℚ, (f0 = sessionFee ∨ f0 = 0) ∧
      (cart_totals menu items sessionFee coupon).subtotal =
        round2 (cart_subtotal_raw menu items) ∧
      (cart_totals menu items sessionFee coupon).coupon_discount =
        round2 (coupon_discount_for coupon (cart_subtotal_raw menu items)).1 ∧
      (cart_totals menu items sessionFee coupon).delivery_fee = round2 f0 ∧
      (cart_totals menu items sessionFee coupon).total =
        round2 (max 0 (cart_subtotal_raw menu items -
          (coupon_discount_for coupon (cart_subtotal_raw menu items)).1) + f0) := by
  unfold cart_totals
  dsimp only
  rw [if_neg hcount]
  cases coupon with
  | none => exact ⟨sessionFee, Or.inl rfl, rfl, rfl, rfl, rfl⟩
  | some c =>
      dsimp only
      by_cases hty : c.discount_type = DiscountType.free_delivery
      · rw [if_pos hty]
        by_cases hgr : c.grants_free_delivery (cart_subtotal_raw menu items) = true
        · rw [if_pos hgr]
          exact ⟨0, Or.inr rfl, rfl, rfl, rfl, rfl⟩
        · rw [if_neg hgr]
          exact ⟨sessionFee, Or.inl rfl, rfl, rfl, rfl, rfl⟩
      · rw [if_neg hty]
        exact ⟨sessionFee, Or.inl rfl, rfl, rfl, rfl, rfl⟩

/-- C4 amended: a successfully placed delivery order stores
`coupon_discount` equal to the consumed coupon's computed discount on
the stored subtotal (0 if none), and — provided the computed discount
is an exact two-decimal amount, any free-delivery coupon has
`discount_value` 0, and the cart's computed total is nonzero — the
stored `total` equals `max(0, subtotal − coupon_discount) +
delivery_fee` exactly.  (In general the stored total is the 2-decimal
rounding of that quantity, and a zero computed total falls back to
`subtotal + delivery_fee`.) -/
theorem delivery_place_order_total_spec
    (menu : List MenuItem) (items : List (ℕ × ℕ)) (sessionFee : ℚ)
    (coupon : Option DeliveryCoupon) (o : PlacedOrder)
    (hmenu2 : ∀ m ∈ menu, TwoDP m.price) (hmenupos : ∀ m ∈ menu, 0 ≤ m.price)
    (hfee2 : TwoDP sessionFee)
    (hfd : ∀ c, coupon = some c →
      c.discount_type = DiscountType.free_delivery → c.discount_value = 0)
    (hdisc2 : TwoDP (couponComputedDiscount coupon (cart_subtotal_raw menu items)))
    (htot : (cart_totals menu items sessionFee coupon).total ≠ 0)
    (ho : delivery_place_order menu items sessionFee coupon = some o) :
    o.coupon_discount = couponComputedDiscount coupon o.subtotal ∧
    o.total = max 0 (o.subtotal - o.coupon_discount) + o.delivery_fee := by
  have hlines := cart_totals_lines menu items sessionFee coupon
  unfold delivery_place_order at ho
  dsimp only at ho
  by_cases hemp : (cart_totals menu items sessionFee coupon).lines.isEmpty
  · rw [if_pos hemp] at ho
    cases ho
  · rw [if_neg hemp] at ho
    injection ho with ho
    subst ho
    have hne : cart_lines menu items ≠ [] := by
      intro h
      exact hemp (by rw [hlines, h]; rfl)
    have hcount : ¬cart_count menu items ≤ 0 := by
      have := cart_count_pos hne
      omega
    obtain ⟨f0, hf0, hsub, hdisc, hfee, htotal⟩ :=
      cart_money menu items sessionFee coupon hcount
    have hs2 : TwoDP (cart_subtotal_raw menu items) :=
      cart_subtotal_raw_twoDP hmenu2
    have hsnn : 0 ≤ cart_subtotal_raw menu items :=
      cart_subtotal_raw_nonneg hmenupos
    have hsubs : (cart_totals menu items sessionFee coupon).subtotal =
        cart_subtotal_raw menu items := by
      rw [hsub, round2_eq_self hs2]
    have hdeq := coupon_discount_eq coupon hsnn hfd
    have hcd2 : TwoDP ((coupon_discount_for coupon (cart_subtotal_raw menu items)).1) := by
      rw [hdeq]
      exact hdisc2
    have hf02 : TwoDP f0 := by
      rcases hf0 with rfl | rfl
      · exact hfee2
      · exact TwoDP.zero
    have hfees : (cart_totals menu items sessionFee coupon).delivery_fee = f0 := by
      rw [hfee, round2_eq_self hf02]
    constructor
    · show couponComputedDiscount coupon
          (cart_totals menu items sessionFee coupon).subtotal =
        couponComputedDiscount coupon (cart_totals menu items sessionFee coupon).subtotal
      rfl
    · show (if (cart_totals menu items sessionFee coupon).total = 0 then
          (cart_totals menu items sessionFee coupon).subtotal +
            (cart_totals menu items sessionFee coupon).delivery_fee
        else (cart_totals menu items sessionFee coupon).total) =
        max 0 ((cart_totals menu items sessionFee coupon).subtotal -
          couponComputedDiscount coupon
            (cart_totals menu items sessionFee coupon).subtotal) +
          (cart_totals menu items sessionFee coupon).delivery_fee
      rw [if_neg htot, htotal, hsubs, hfees, ← hdeq]
      have h2 : TwoDP (max 0 (cart_subtotal_raw menu items -
          (coupon_discount_for coupon (cart_subtotal_raw menu items)).1) + f0) :=
        TwoDP.add (TwoDP.max TwoDP.zero (TwoDP.sub hs2 hcd2)) hf02
      rw [round2_eq_self h2]

theorem cart_totals_menu20_none : cart_totals menu20 [(1, 1)] 5 none =
    { subtotal := 20, delivery_fee := 5, coupon_discount := 0,
      coupon := { active := false }, total := 25, count := 1,
      lines := [{ id := 1, qty := 1, unit_price := 20 }],
      delivery_fee_waived := false } := by
  unfold cart_totals
  dsimp only
  rw [if_neg (by rw [cart_count_menu20]; omega)]
  rw [cart_subtotal_raw_menu20]
  simp only [CartTotals.mk.injEq]
  refine ⟨round2_eq_self ⟨2000, by norm_num⟩, round2_eq_self ⟨500, by norm_num⟩,
    ?_, rfl, ?_, cart_count_menu20, rfl, rfl⟩
  · exact round2_zero
  · rw [show max (0 : ℚ) (20 - (coupon_discount_for none 20).1) + 5 = 25 by
      unfold coupon_discount_for
      norm_num]
    exact round2_eq_self ⟨2500, by norm_num⟩

/-- A concrete successful order with no coupon: the stored total 25
equals `max(0, 20 − 0) + 5`. -/
theorem delivery_place_order_total_witness :
    delivery_place_order menu20 [(1, 1)] 5 none = some demoOrder ∧
    demoOrder.coupon_discount = couponComputedDiscount none demoOrder.subtotal ∧
    demoOrder.total =
      max 0 (demoOrder.subtotal - demoOrder.coupon_discount) +
        demoOrder.delivery_fee := by
  have ho : delivery_place_order menu20 [(1, 1)] 5 none = some demoOrder := by
    unfold delivery_place_order
    dsimp only
    rw [cart_totals_menu20_none]
    norm_num [demoOrder]
  have h := delivery_place_order_total_spec menu20 [(1, 1)] 5 none demoOrder
    (by intro m hm; rcases List.mem_singleton.mp hm with rfl; exact ⟨2000, by norm_num⟩)
    (by intro m hm; rcases List.mem_singleton.mp hm with rfl; norm_num)
    ⟨500, by norm_num⟩
    (by intro c hc; cases hc)
    TwoDP.zero
    (by rw [cart_totals_menu20_none]; norm_num)
    ho
  exact ⟨ho, h.1, h.2⟩

theorem cex_subtotal_raw : cart_subtotal_raw cexMenu [(1, 1)] = 1001/20 := by
  unfold cart_subtotal_raw
  rw [show cart_lines cexMenu [(1, 1)] =
      [{ id := 1, qty := 1, unit_price := 1001/20 }] from rfl]
  norm_num

theorem cex_compute_discount : cexCoupon.compute_discount (1001/20) = 1001/200 := by
  have h := (compute_discount_spec cexCoupon (1001/20) (by norm_num)).2.2
    (by norm_num [cexCoupon]) rfl
  rw [h]
  norm_num [cexCoupon]

theorem cex_discount_for :
    coupon_discount_for (some cexCoupon) (1001/20) =
      (1001/200,
        { active := true, code := "PCT10", discount := 5,
          ctype := some DiscountType.percent, value := 10, min_subtotal := 0,
          free_delivery := false }) := by
  unfold coupon_discount_for
  dsimp only
  rw [if_neg (by simp [cexCoupon] :
    ¬cexCoupon.discount_type = DiscountType.free_delivery)]
  rw [cex_compute_discount]
  rw [if_neg (by norm_num : ¬(1001 : ℚ)/20 ≤ 0)]
  rw [if_neg (by norm_num : ¬(1001 : ℚ)/200 ≤ 0)]
  have hr : round2 (1001/200) = 5 := by
    unfold round2 roundHalfEven
    norm_num
  rw [hr]
  rfl

theorem cex_cart : cart_totals cexMenu [(1, 1)] 0 (some cexCoupon) =
    { subtotal := 1001/20, delivery_fee := 0, coupon_discount := 5,
      coupon := { active := true, code := "PCT10", discount := 5,
                  ctype := some DiscountType.percent, value := 10,
                  min_subtotal := 0, free_delivery := false },
      total := 1126/25, count := 1,
      lines := [{ id := 1, qty := 1, unit_price := 1001/20 }],
      delivery_fee_waived := false } := by
  unfold cart_totals
  dsimp only
  rw [if_neg (show ¬cart_count cexMenu [(1, 1)] ≤ 0 by
    rw [show cart_count cexMenu [(1, 1)] = 1 from rfl]; omega)]
  rw [cex_subtotal_raw, cex_discount_for]
  rw [if_neg (by simp [cexCoupon] :
    ¬cexCoupon.discount_type = DiscountType.free_delivery)]
  dsimp only
  rw [show round2 (1001/20 : ℚ) = 1001/20 from round2_eq_self ⟨5005, by norm_num⟩]
  rw [round2_zero]
  rw [show round2 (1001/200 : ℚ) = 5 from by unfold round2 roundHalfEven; norm_num]
  rw [show max (0 : ℚ) (1001/20 - 1001/200) + 0 = 9009/200 from by norm_num]
  rw [show round2 (9009/200 : ℚ) = 1126/25 from by unfold round2 roundHalfEven; norm_num]
  rfl

/-- C4 counterexample: a cart of one 50.05 item with a 10-percent
coupon and delivery fee 0 stores total 45.04 but coupon_discount 5.005,
so `total ≠ max(0, subtotal − coupon_discount) + delivery_fee`
(45.04 ≠ 45.045). -/
theorem delivery_place_order_total_counterexample :
    delivery_place_order cexMenu [(1, 1)] 0 (some cexCoupon) = some cexOrder ∧
    cexOrder.total ≠
      max 0 (cexOrder.subtotal - cexOrder.coupon_discount) +
        cexOrder.delivery_fee := by
  constructor
  · unfold delivery_place_order
    dsimp only
    rw [cex_cart]
    dsimp only
    rw [if_neg (by norm_num : ¬(1126 : ℚ)/25 = 0)]
    rw [if_neg (show ¬([{ id := 1, qty := 1, unit_price := (1001 : ℚ)/20 }] :
        List CartLine).isEmpty = true from by simp)]
    rw [cex_compute_discount]
    rfl
  · norm_num [cexOrder]

/-- A concrete eligible free-delivery coupon zeroes the fee. -/
theorem free_delivery_coupon_fee_spec_witness :
    (cart_totals menu40 [(1, 1)] 9 (some demoFreeCoupon)).delivery_fee = 0 :=
  free_delivery_coupon_fee_spec.2.2.2 menu40 [(1, 1)] 9 demoFreeCoupon rfl
    (by rw [cart_subtotal_raw_menu40]; norm_num [demoFreeCoupon])

theorem find?_append_none {α : Type} {p : α → Bool} {l1 l2 : List α}
    (h : l1.find? p = none) : (l1 ++ l2).find? p = l2.find? p := by
  induction l1 with
  | nil => rfl
  | cons a t ih =>
      rw [List.find?_cons] at h
      cases hpa : p a with
      | true => rw [hpa] at h; cases h
      | false =>
          rw [hpa] at h
          rw [List.cons_append, List.find?_cons, hpa]
          exact ih h

theorem loyaltyCoupon_matches (cfg : LoyaltyConfig) (userId : ℕ) (monthKey : String)
    (monthStart monthEnd : ℤ) (freshCode : String) :
    loyalty_matches cfg userId monthKey
      (loyaltyCoupon cfg userId monthKey monthStart monthEnd freshCode) = true := by
  unfold loyalty_matches loyaltyCoupon
  simp

theorem loyaltyCoupon_current (cfg : LoyaltyConfig) (userId : ℕ) (monthKey : String)
    (monthStart monthEnd now : ℤ) (freshCode : String)
    (hs : monthStart ≤ now) (he : now ≤ monthEnd) :
    (loyaltyCoupon cfg userId monthKey monthStart monthEnd freshCode).is_current
      now = true := by
  unfold DeliveryCoupon.is_current loyaltyCoupon
  dsimp only
  rw [if_neg (by simp)]
  rw [if_neg (by simpa using not_lt.mpr hs)]
  rw [if_neg (by simpa using not_lt.mpr he)]
  rw [if_neg (by simp)]

/-- C5: when an authenticated user's delivered-order count has reached
the target and no loyalty coupon exists yet for this user and month,
one invocation creates exactly one active personal percent coupon
(reward percent value, `max_uses = 1`, `used_count = 0`, validity
window the calendar month), and a second invocation in the same month
returns that existing coupon and leaves the coupon table unchanged. -/
theorem loyalty_accrual_idempotent (cfg : LoyaltyConfig) (userId count : ℕ)
    (monthKey : String) (monthStart monthEnd now : ℤ) (freshCode : String)
    (coupons : List DeliveryCoupon)
    (hen : cfg.enabled = true)
    (htar : cfg.target ≤ count)
    (hnone : coupons.find? (loyalty_matches cfg userId monthKey) = none)
    (hs : monthStart ≤ now) (he : now ≤ monthEnd) :
    ensure_loyalty_coupon_for_user cfg userId count monthKey monthStart monthEnd
        now freshCode coupons =
      (some (loyaltyCoupon cfg userId monthKey monthStart monthEnd freshCode),
        coupons ++ [loyaltyCoupon cfg userId monthKey monthStart monthEnd freshCode]) ∧
    (loyaltyCoupon cfg userId monthKey monthStart monthEnd freshCode).is_active = true ∧
    (loyaltyCoupon cfg userId monthKey monthStart monthEnd freshCode).is_personal = true ∧
    (loyaltyCoupon cfg userId monthKey monthStart monthEnd freshCode).assigned_user =
      some userId ∧
    (loyaltyCoupon cfg userId monthKey monthStart monthEnd freshCode).discount_type =
      DiscountType.percent ∧
    (loyaltyCoupon cfg userId monthKey monthStart monthEnd freshCode).discount_value =
      (cfg.percent : ℚ) ∧
    (loyaltyCoupon cfg userId monthKey monthStart monthEnd freshCode).max_uses =
      some 1 ∧
    (loyaltyCoupon cfg userId monthKey monthStart monthEnd freshCode).used_count = 0 ∧
    (loyaltyCoupon cfg userId monthKey monthStart monthEnd freshCode).start_at =
      some monthStart ∧
    (loyaltyCoupon cfg userId monthKey monthStart monthEnd freshCode).end_at =
      some monthEnd ∧
    ensure_loyalty_coupon_for_user cfg userId count monthKey monthStart monthEnd
        now freshCode
        (coupons ++ [loyaltyCoupon cfg userId monthKey monthStart monthEnd freshCode]) =
      (some (loyaltyCoupon cfg userId monthKey monthStart monthEnd freshCode),
        coupons ++ [loyaltyCoupon cfg userId monthKey monthStart monthEnd freshCode]) := by
  have hfirst : ensure_loyalty_coupon_for_user cfg userId count monthKey monthStart
      monthEnd now freshCode coupons =
      (some (loyaltyCoupon cfg userId monthKey monthStart monthEnd freshCode),
        coupons ++ [loyaltyCoupon cfg userId monthKey monthStart monthEnd freshCode]) := by
    unfold ensure_loyalty_coupon_for_user
    rw [if_neg (by simp [hen]), if_neg (not_lt.mpr htar)]
    dsimp only
    rw [hnone]
  have hsecond : ensure_loyalty_coupon_for_user cfg userId count monthKey monthStart
      monthEnd now freshCode
      (coupons ++ [loyaltyCoupon cfg userId monthKey monthStart monthEnd freshCode]) =
      (some (loyaltyCoupon cfg userId monthKey monthStart monthEnd freshCode),
        coupons ++ [loyaltyCoupon cfg userId monthKey monthStart monthEnd freshCode]) := by
    unfold ensure_loyalty_coupon_for_user
    rw [if_neg (by simp [hen]), if_neg (not_lt.mpr htar)]
    dsimp only
    rw [find?_append_none hnone]
    rw [List.find?_cons, loyaltyCoupon_matches]
    dsimp only
    rw [if_pos (loyaltyCoupon_current cfg userId monthKey monthStart monthEnd now
      freshCode hs he)]
  exact ⟨hfirst, rfl, rfl, rfl, rfl, rfl, rfl, rfl, rfl, rfl, hsecond⟩

/-- A concrete loyalty run: config enabled with target 10 and reward
30, a user with 10 delivered orders this month and an empty coupon
table; the accrual issues one personal coupon and a second call in the
same month returns it unchanged. -/
theorem loyalty_accrual_idempotent_witness :
    ensure_loyalty_coupon_for_user ⟨true, 10, 30⟩ 1 10 "2026-10" 0 100 50
        "LOYAL30-AB12CD" [] =
      (some (loyaltyCoupon ⟨true, 10, 30⟩ 1 "2026-10" 0 100 "LOYAL30-AB12CD"),
        [loyaltyCoupon ⟨true, 10, 30⟩ 1 "2026-10" 0 100 "LOYAL30-AB12CD"]) ∧
    ensure_loyalty_coupon_for_user ⟨true, 10, 30⟩ 1 10 "2026-10" 0 100 50
        "LOYAL30-AB12CD"
        [loyaltyCoupon ⟨true, 10, 30⟩ 1 "2026-10" 0 100 "LOYAL30-AB12CD"] =
      (some (loyaltyCoupon ⟨true, 10, 30⟩ 1 "2026-10" 0 100 "LOYAL30-AB12CD"),
        [loyaltyCoupon ⟨true, 10, 30⟩ 1 "2026-10" 0 100 "LOYAL30-AB12CD"]) := by
  have h := loyalty_accrual_idempotent ⟨true, 10, 30⟩ 1 10 "2026-10" 0 100 50
    "LOYAL30-AB12CD" [] rfl (by norm_num) rfl (by norm_num) (by norm_num)
  exact ⟨by simpa using h.1, by simpa using h.2.2.2.2.2.2.2.2.2.2⟩

-- ---------------------------------------------------------------------
-- Fee schedule theorems
-- ---------------------------------------------------------------------

/-- C7: `delivery_fee_for_distance` returns 0 for non-positive
distances; for positive distance it returns `base_fee` within
`base_km`, otherwise `base_fee + (distance − base_km) × per_km_fee`,
capped at `max_fee` and rounded to 2 decimals; the fallback policy is
`{base_km 2, base_fee 0, per_km_fee 0.99, max_fee 8.99}`, under which
distance 0 gives 0, 1.5 gives 0.00, 5 gives 2.97 and 20 gives 8.99. -/
theorem delivery_fee_for_distance_spec (pricing : Option DeliveryPricing) (d : ℚ) :
    (d ≤ 0 → delivery_fee_for_distance pricing d = 0) ∧
    (0 < d → delivery_fee_for_distance pricing d =
      round2 (min (if d ≤ (pricing.getD defaultPricing).base_km
                   then (pricing.getD defaultPricing).base_fee
                   else (pricing.getD defaultPricing).base_fee +
                     (d - (pricing.getD defaultPricing).base_km) *
                       (pricing.getD defaultPricing).per_km_fee)
               (pricing.getD defaultPricing).max_fee)) ∧
    defaultPricing = { base_km := 2, base_fee := 0, per_km_fee := 99/100,
                       max_fee := 899/100 } ∧
    delivery_fee_for_distance none 0 = 0 ∧
    delivery_fee_for_distance none (3/2) = 0 ∧
    delivery_fee_for_distance none 5 = 297/100 ∧
    delivery_fee_for_distance none 20 = 899/100 := by
  refine ⟨?_, ?_, rfl, ?_, ?_, ?_, ?_⟩
  · intro h
    unfold delivery_fee_for_distance
    rw [if_pos h]
  · intro h
    unfold delivery_fee_for_distance
    rw [if_neg (not_le.mpr h)]
    dsimp only
    congr 1
    set F := if d ≤ (pricing.getD defaultPricing).base_km
             then (pricing.getD defaultPricing).base_fee
             else (pricing.getD defaultPricing).base_fee +
               (d - (pricing.getD defaultPricing).base_km) *
                 (pricing.getD defaultPricing).per_km_fee with hF
    rcases lt_or_le (pricing.getD defaultPricing).max_fee F with h' | h'
    · rw [if_pos h', min_eq_right (le_of_lt h')]
    · rw [if_neg (not_lt.mpr h'), min_eq_left h']
  · unfold delivery_fee_for_distance
    norm_num
  · unfold delivery_fee_for_distance round2 roundHalfEven defaultPricing
    norm_num
  · unfold delivery_fee_for_distance round2 roundHalfEven defaultPricing
    norm_num
  · unfold delivery_fee_for_distance round2 roundHalfEven defaultPricing
    norm_num

/-- A negative distance gives fee 0. -/
theorem delivery_fee_for_distance_spec_witness :
    delivery_fee_for_distance none (-3) = 0 :=
  (delivery_fee_for_distance_spec none (-3)).1 (by norm_num)
